import Mathlib

set_option maxRecDepth 20000

/-!
Shallow embedding of `src/app.py` (PakGenAI WhatsApp career-counselling bot).

Python strings are modelled as `List Char` (one entry per code point, which is
what Python's `len`, slicing and `str.rfind` operate on).  The external
collaborators (OpenAI completion call, Twilio sends, Google Sheets) are
modelled as explicit inputs: the completion call as a function from the prompt
to `Except error text`, the sheet contents as a `List (List Str)` of rows.
-/

abbrev Str := List Char

/-- Characters removed by Python `str.strip()` with no argument (the ASCII
whitespace class; Python additionally strips some rare Unicode spaces, which
never occur in the strings of this development). -/
def isPySpace (c : Char) : Bool :=
  c == ' ' || c == '\t' || c == '\n' || c == '\r' || c == '\x0b' || c == '\x0c'

/-- Python `s.strip()`: remove leading and trailing whitespace. -/
def pystrip (l : Str) : Str :=
  ((l.dropWhile isPySpace).reverse.dropWhile isPySpace).reverse

/-- Python `s.lower()` (ASCII case folding, which is all the bot compares). -/
def pylower (l : Str) : Str := l.map Char.toLower

/-- Python `text.rfind(c, 0, stop)`: the largest index `i < stop` with
`text[i] = c`, scanning downward; `none` plays the role of Python's `-1`. -/
def rfindAux (text : Str) (c : Char) : Nat → Option Nat
  | 0 => none
  | n + 1 => if text.get? n = some c then some n else rfindAux text c n

/-- `split_text` from `src/app.py` lines 117-126, with an explicit fuel bound
on the number of loop iterations because the Python `while` loop does not
always terminate.  `some parts` means the loop exits within `fuel` iterations
returning `parts`; `none` means it is still running after `fuel` iterations.

    def split_text(text, max_length=1500):
        parts = []
        while len(text) > max_length:
            idx = text.rfind("\n", 0, max_length)
            if idx == -1:
                idx = max_length
            parts.append(text[:idx])
            text = text[idx:]
        parts.append(text)
        return parts
-/
def split_text : Nat → Str → Nat → Option (List Str)
  | 0, _, _ => none
  | fuel + 1, text, max_length =>
    if max_length < text.length then
      let idx := match rfindAux text '\n' max_length with
        | some i => i
        | none => max_length
      match split_text fuel (text.drop idx) max_length with
      | some rest => some (text.take idx :: rest)
      | none => none
    else
      some [text]

/-- The fixed question list (`questions`, `src/app.py` lines 104-115). -/
def questions : List Str :=
  [ ("1️⃣ What is your current education stream? (FSc Pre-Med, FSc Pre-Engg, ICS, FA, A Levels, IB, etc.)").data
  , ("2️⃣ What is your favorite subject in school or college?").data
  , ("3️⃣ How well do you usually perform in studies?").data
  , ("4️⃣ Be honest, do you enjoy studying or not really?").data
  , ("5️⃣ Do you prefer working indoors or outdoors?").data
  , ("6️⃣ Would you rather work with people, or independently?").data
  , ("7️⃣ What sounds more exciting to you: designing something or solving logical problems?").data
  , ("8️⃣ Do you enjoy building things with your hands or using a computer to create solutions?").data
  , ("9️⃣ What\x27s more important to you: earning a good income, enjoying your work, or helping others?").data
  , ("🔟 What do you usually do in your free time? (e.g. gaming, helping family, browsing tech, etc.)").data ]

def numQuestions : Nat := questions.length

/-- One per-sender entry of the in-memory `user_states` dict.  The Python dict
starts with keys `step`, `answers`, `suggested`; the keys `feedback` and
`user_id` are added later, so they are modelled as `Option` fields that start
out `none`. -/
structure Session where
  step : Int
  answers : List Str
  suggested : Bool
  feedback : Option Str
  user_id : Option Str
deriving DecidableEq

structure StepResult where
  sess : Session
  reply : Str
  spawn : Bool
deriving DecidableEq

/-- The body of `whatsapp_bot` (`src/app.py` lines 164-228) acting on one
sender's session entry.  `sess` is `user_states.get(phone)`; `msg` is the
already-stripped message body.  `spawn` records whether the handler started
the background `send_suggestions_and_feedback` thread on this request. -/
def botStep (sess : Option Session) (msg : Str) : StepResult :=
  match sess with
  | none =>
      { sess := Session.mk (-1) [] false none none
        reply := ("👋 Hi I’m *PakGenAI*, your personal career counsellor.\n\nJust answer 10 quick questions and I’ll match you with careers that fit YOU.\n\nType *ready* to begin!").data
        spawn := false }
  | some s =>
      if s.step = -1 then
        if pylower msg = ("ready").data then
          { sess := { s with step := 0 }
            reply := ("Great! Let\x27s begin 🚀\n\n").data ++ questions.getD 0 []
            spawn := false }
        else
          { sess := s
            reply := ("Please type *ready* to begin the quiz.").data
            spawn := false }
      else if 0 ≤ s.step ∧ s.step < (numQuestions : Int) then
        if s.step + 1 < (numQuestions : Int) then
          { sess := { s with answers := s.answers ++ [msg], step := s.step + 1 }
            reply := questions.getD (s.step + 1).toNat []
            spawn := false }
        else
          { sess := { s with answers := s.answers ++ [msg], step := s.step + 1 }
            reply := ("⏳ Analyzing your answers...").data
            spawn := true }
      else if s.suggested = true ∧ s.feedback = none then
        { sess := { s with feedback := some msg }
          reply := ("✅ Thanks for your feedback! For any queries you can DM us at *PakGenAI* on Instagram.").data
          spawn := false }
      else
        { sess := s
          reply := ("✅ You\x27ve completed the quiz. For any queries you can DM us at *PakGenAI* on Instagram.").data
          spawn := false }

structure HttpResponse where
  status : Nat
  body : Option Str
deriving DecidableEq

structure BotResult where
  response : HttpResponse
  states : Str → Option Session
  spawned : Bool

/-- Python `sender.split(":")[-1]`: the part of the string after the last
colon (the whole string when no colon occurs). -/
def phoneOf (sender : Str) : Str :=
  ((sender.reverse.takeWhile (fun c => c ≠ ':')).reverse)

/-- The `whatsapp_bot` Flask handler (`src/app.py` lines 164-228) as a pure
transition on the `user_states` map.  `fromField`/`bodyField` are the form
fields `From` and `Body` (`none` = absent).  Python's
`msg = (request.form.get("Body") or "").strip()` strips the body before any
dispatch; `if not sender` rejects both an absent and an empty `From` with
`Response(status=400)` (status 400, no body). -/
def whatsapp_bot (fromField bodyField : Option Str) (user_states : Str → Option Session) :
    BotResult :=
  let msg := pystrip (bodyField.getD [])
  match fromField with
  | none =>
      { response := HttpResponse.mk 400 none, states := user_states, spawned := false }
  | some sender =>
      if sender = [] then
        { response := HttpResponse.mk 400 none, states := user_states, spawned := false }
      else
        let phone := phoneOf sender
        let r := botStep (user_states phone) msg
        { response := HttpResponse.mk 200 (some r.reply)
          states := fun p => if p = phone then some r.sess else user_states p
          spawned := r.spawn }

/-- Events affecting one sender's session: an inbound webhook request carrying
the raw `Body` field, or the completion of the background
`send_suggestions_and_feedback` thread (which sets `user_id`, then
`suggested = True`; its external effects — the OpenAI call, the placeholder
row, the Twilio sends — do not touch the session fields the claims are
about). -/
inductive Ev where
  | inbound (body : Option Str)
  | bgDone (uid : Str)
deriving DecidableEq

/-- Session mutations performed by `send_suggestions_and_feedback`
(`src/app.py` lines 230-249): store the assigned user id and finally set
`suggested = True`. -/
def bgFinish (s : Session) (uid : Str) : Session :=
  { s with user_id := some uid, suggested := true }

/-- Apply one event to (session entry, number of background threads started
so far).  An inbound message goes through the stripped-body dispatch of
`whatsapp_bot`; a thread that finds no session (impossible in practice) dies
with a `KeyError` and changes nothing. -/
def applyEv (st : Option Session × Nat) (ev : Ev) : Option Session × Nat :=
  match ev with
  | Ev.inbound body =>
      let r := botStep st.1 (pystrip (body.getD []))
      (some r.sess, st.2 + (if r.spawn then 1 else 0))
  | Ev.bgDone uid =>
      match st.1 with
      | none => (none, st.2)
      | some s => (some (bgFinish s uid), st.2)

/-- The session state (and background-thread count) after a sequence of
events, starting from a sender that has never messaged before. -/
def runSession (evs : List Ev) : Option Session × Nat :=
  evs.foldl applyEv (none, 0)

/-- `user_states[phone]["step"]`, reading `-1` for a sender not yet in the
map (the handler immediately creates the entry with `step = -1`). -/
def sessionStep : Option Session → Int
  | none => -1
  | some s => s.step

/-- The prompt built by `get_career_suggestions` (`src/app.py` lines
129-137).  Python iterates `enumerate(answers)` and indexes `questions[i]`;
for at most ten answers this is the fold over the zipped pairs used here
(more than ten answers would raise `IndexError`, outside this model's and the
claims' domain). -/
def prompt_for (answers : List Str) : Str :=
  ("A Pakistani student answered the following questions:\n\n").data ++
  ((questions.zip answers).foldl
    (fun acc qa => acc ++ qa.1 ++ [' '] ++ qa.2 ++ ['\n']) []) ++
  ("\nBased on these answers, suggest 3–5 realistic career paths that might suit this student from Pakistan. For each option, include:\n- A simple explanation\n- How this career is doing in Pakistan\n- Which degree is usually needed\n- Top universities in Pakistan offering it. At the end of the answer, please add a short explanation on how to get into each university you mentioned (what tests to take, how to prepare etc). Make sure all info is accurate and authentic. Reply as if you\x27re directly talking to the student. At the end say: \x27You can DM us at PakGenAI on Instagram for further guidance and queries.\x27").data

/-- `get_career_suggestions` (`src/app.py` lines 128-152).  The OpenAI chat
call is the external input `complete` mapping the prompt to either the
message content (`Except.ok`) or the exception text (`Except.error`, covering
any exception raised inside the `try` block).  On success Python returns
`content.strip()`; on failure the f-string warning embedding the error. -/
def get_career_suggestions (answers : List Str) (complete : Str → Except Str Str) : Str :=
  match complete (prompt_for answers) with
  | Except.ok content => pystrip content
  | Except.error e => ("⚠️ Something went wrong with OpenAI: ").data ++ e

/-- Python `int` on a run of ASCII digits. -/
def digitsToNat (l : Str) : Nat := l.foldl (fun n c => n * 10 + (c.toNat - 48)) 0

/-- `re.search(r"User #(\d+)", s)` followed by `int(match.group(1))`: scan
left to right for the first position where the literal `User #` is followed
by at least one digit, and parse the maximal digit run there. -/
def matchUserNum : Str → Option Nat
  | [] => none
  | c :: rest =>
    if ("User #").data.isPrefixOf (c :: rest)
        && !(((c :: rest).drop 6).takeWhile Char.isDigit).isEmpty then
      some (digitsToNat (((c :: rest).drop 6).takeWhile Char.isDigit))
    else
      matchUserNum rest

/-- `init_user_counter` (`src/app.py` lines 41-52).  `records` is
`sheet.get_all_values()` (a list of rows of cell strings).  Python looks only
at `records[-1][0]` — the first cell of the LAST row — when there are at
least two rows; indexing an empty last row raises `IndexError`, caught by the
`except` that returns 0. -/
def init_user_counter (records : List (List Str)) : Nat :=
  if 1 < records.length then
    match records.getLast? with
    | none => 0
    | some row =>
      match row.head? with
      | none => 0
      | some lastUser =>
        match matchUserNum lastUser with
        | some n => n
        | none => 0
  else 0

/-- Modelled from the spec: the seeding the spec describes — "scanning
existing persisted rows for the highest prior sequence number", i.e. the
maximum `User #<n>` number appearing in any cell of any row.  Used only to
compare the code's actual seeding against the spec's words. -/
def spec_highest_user_num (records : List (List Str)) : Nat :=
  records.foldl
    (fun acc row => row.foldl (fun a cell => max a ((matchUserNum cell).getD 0)) acc) 0

/-! ## Chunker lemmas -/

lemma rfindAux_lt_stop (text : Str) (c : Char) :
    ∀ stop i, rfindAux text c stop = some i → i < stop := by
  intro stop
  induction stop with
  | zero => intro i h; simp [rfindAux] at h
  | succ n ih =>
    intro i h
    rw [rfindAux] at h
    split at h
    · simp only [Option.some.injEq] at h
      omega
    · exact Nat.lt_succ_of_lt (ih i h)

lemma join_take_drop (text : Str) (idx : Nat) (rest : List Str)
    (h : rest.flatten = text.drop idx) : (text.take idx :: rest).flatten = text := by
  rw [List.flatten_cons, h, List.take_append_drop]

lemma split_text_join_aux :
    ∀ fuel text maxL parts, split_text fuel text maxL = some parts → parts.flatten = text := by
  intro fuel
  induction fuel with
  | zero => intro text maxL parts h; simp [split_text] at h
  | succ n ih =>
    intro text maxL parts h
    rw [split_text] at h
    by_cases hlen : maxL < text.length
    · rw [if_pos hlen] at h
      cases hfind : rfindAux text '\n' maxL with
      | some i =>
        simp only [hfind] at h
        cases hrec : split_text n (text.drop i) maxL with
        | none => rw [hrec] at h; simp at h
        | some rest =>
          rw [hrec] at h
          simp only [Option.some.injEq] at h
          subst h
          exact join_take_drop text i rest (ih _ _ _ hrec)
      | none =>
        simp only [hfind] at h
        cases hrec : split_text n (text.drop maxL) maxL with
        | none => rw [hrec] at h; simp at h
        | some rest =>
          rw [hrec] at h
          simp only [Option.some.injEq] at h
          subst h
          exact join_take_drop text maxL rest (ih _ _ _ hrec)
    · rw [if_neg hlen] at h
      simp only [Option.some.injEq] at h
      subst h
      simp

lemma split_text_short (fuel : Nat) (text : Str) (maxL : Nat) (h : ¬ maxL < text.length) :
    split_text (fuel + 1) text maxL = some [text] := by
  rw [split_text, if_neg h]

lemma split_text_chunk_le :
    ∀ fuel text maxL parts, split_text fuel text maxL = some parts →
      ∀ p ∈ parts, p.length ≤ maxL := by
  intro fuel
  induction fuel with
  | zero => intro text maxL parts h; simp [split_text] at h
  | succ n ih =>
    intro text maxL parts h p hp
    rw [split_text] at h
    by_cases hlen : maxL < text.length
    · rw [if_pos hlen] at h
      cases hfind : rfindAux text '\n' maxL with
      | some i =>
        have hi : i < maxL := rfindAux_lt_stop text '\n' maxL i hfind
        simp only [hfind] at h
        cases hrec : split_text n (text.drop i) maxL with
        | none => rw [hrec] at h; simp at h
        | some rest =>
          rw [hrec] at h
          simp only [Option.some.injEq] at h
          subst h
          rcases List.mem_cons.mp hp with hpe | hpm
          · subst hpe
            rw [List.length_take]
            omega
          · exact ih _ _ _ hrec p hpm
      | none =>
        simp only [hfind] at h
        cases hrec : split_text n (text.drop maxL) maxL with
        | none => rw [hrec] at h; simp at h
        | some rest =>
          rw [hrec] at h
          simp only [Option.some.injEq] at h
          subst h
          rcases List.mem_cons.mp hp with hpe | hpm
          · subst hpe
            rw [List.length_take]
            omega
          · exact ih _ _ _ hrec p hpm
    · rw [if_neg hlen] at h
      simp only [Option.some.injEq] at h
      subst h
      rcases List.mem_cons.mp hp with hpe | hpm
      · subst hpe; omega
      · simp at hpm

lemma replicate_get_ne : ∀ (m k : Nat), (List.replicate m 'B').get? k ≠ some '\n' := by
  intro m
  induction m with
  | zero => intro k; simp
  | succ m ih =>
    intro k
    cases k with
    | zero => simp [List.replicate]
    | succ k => simpa [List.replicate] using ih k

lemma rfind_nl_head (m : Nat) :
    ∀ stop, 1 ≤ stop → rfindAux ('\n' :: List.replicate m 'B') '\n' stop = some 0 := by
  intro stop
  induction stop with
  | zero => intro h; exfalso; omega
  | succ n ih =>
    intro h
    rw [rfindAux]
    cases n with
    | zero => simp
    | succ k =>
      have hne : ('\n' :: List.replicate m 'B').get? (k + 1) ≠ some '\n' := by
        simp only [List.get?_cons_succ]
        exact replicate_get_ne m k
      rw [if_neg hne]
      exact ih (by omega)

lemma split_stuck (m : Nat) (hm : 1500 < m + 1) :
    ∀ fuel, split_text fuel ('\n' :: List.replicate m 'B') 1500 = none := by
  intro fuel
  induction fuel with
  | zero => rfl
  | succ n ih =>
    rw [split_text]
    have hlen : 1500 < ('\n' :: List.replicate m 'B').length := by
      simp [List.length_replicate]
      omega
    rw [if_pos hlen, rfind_nl_head m 1500 (by omega)]
    dsimp only
    rw [List.drop_zero, ih]

lemma rfind_A_nl (m : Nat) :
    ∀ stop, 2 ≤ stop → rfindAux ('A' :: '\n' :: List.replicate m 'B') '\n' stop = some 1 := by
  intro stop
  induction stop with
  | zero => intro h; exfalso; omega
  | succ n ih =>
    intro h
    rw [rfindAux]
    cases n with
    | zero => exfalso; omega
    | succ k =>
      cases k with
      | zero => simp
      | succ j =>
        have hne : ('A' :: '\n' :: List.replicate m 'B').get? (j + 2) ≠ some '\n' := by
          simp only [List.get?_cons_succ]
          exact replicate_get_ne m j
        rw [if_neg hne]
        exact ih (by omega)

/-! ## Chunker claim theorems -/

/-- C1: the claim says `split_text` terminates with at least one chunk for
every input at the default maximum length 1500, with progress on every loop
iteration even when the cut point is a found newline.  The code violates
this: on the 1501-character input consisting of a newline followed by 1500
`B` characters, `rfind` returns index 0 every iteration, the emitted chunk is
empty and the text is unchanged, so the loop never exits — for every fuel
bound the loop is still running (`none`). -/
theorem split_text_diverges_on_leading_newline :
    ∀ fuel, split_text fuel ('\n' :: List.replicate 1500 'B') 1500 = none :=
  split_stuck 1500 (by omega)

/-- C2: Scenario D claims chunking `"A\n" + "B"*2000` at maximum length 1500
yields chunks `"A"` then the `B` run.  The code instead emits `"A"`, keeps
the newline at the head of the remainder, and then loops forever on that
remainder (the found newline is at index 0, so no progress is made): for
every fuel bound the loop is still running and no chunk list is returned. -/
theorem scenario_d_diverges :
    ∀ fuel, split_text fuel ('A' :: '\n' :: List.replicate 2000 'B') 1500 = none := by
  intro fuel
  cases fuel with
  | zero => rfl
  | succ n =>
    rw [split_text]
    have hlen : 1500 < ('A' :: '\n' :: List.replicate 2000 'B').length := by
      simp [List.length_replicate]
    rw [if_pos hlen, rfind_A_nl 2000 1500 (by omega)]
    dsimp only
    rw [show ('A' :: '\n' :: List.replicate 2000 'B').drop 1 = '\n' :: List.replicate 2000 'B'
          from rfl,
        split_stuck 2000 (by omega) n]

/-- C3: whenever the chunker terminates (returns within some fuel bound),
concatenating the chunks in order reproduces the input exactly; and a text no
longer than the maximum length comes back as exactly one chunk equal to the
input. -/
theorem split_text_concat_and_short (fuel fuel2 : Nat) (text text2 : Str) (maxL maxL2 : Nat)
    (parts : List Str) (h : split_text fuel text maxL = some parts)
    (h2 : text2.length ≤ maxL2) :
    parts.flatten = text ∧ split_text (fuel2 + 1) text2 maxL2 = some [text2] :=
  ⟨split_text_join_aux fuel text maxL parts h,
   split_text_short fuel2 text2 maxL2 (by omega)⟩

theorem split_text_concat_and_short_witness :
    ([("ab").data, ("cd").data].flatten = ("abcd").data) ∧
    split_text (0 + 1) (("x").data) 5 = some [("x").data] :=
  split_text_concat_and_short 2 0 (("abcd").data) (("x").data) 2 5
    [("ab").data, ("cd").data] (by decide) (by decide)

/-- C10: whenever the chunker terminates, every returned chunk has length at
most the maximum length (the cut index is either a newline position strictly
below the limit or the limit itself, and the final remainder is below the
loop threshold). -/
theorem split_text_chunks_within_limit (fuel : Nat) (text : Str) (maxL : Nat)
    (parts : List Str) (hmax : 1 ≤ maxL) (h : split_text fuel text maxL = some parts) :
    ∀ p ∈ parts, p.length ≤ maxL :=
  split_text_chunk_le fuel text maxL parts h

theorem split_text_chunks_within_limit_witness : (("ab").data).length ≤ 1500 :=
  split_text_chunks_within_limit 1 (("ab").data) 1500 [("ab").data] (by decide) (by decide)
    (("ab").data) (by decide)

/-! ## Conversation state machine lemmas -/

lemma numQuestions_eq : numQuestions = 10 := rfl

lemma numQuestions_int : (numQuestions : Int) = 10 := rfl

/-- Per-session invariant maintained by every transition: `step` stays in
`[-1, N]`, a not-yet-started session has no answers, and while the quiz runs
the number of stored answers equals `step`. -/
def SessInv (s : Session) : Prop :=
  -1 ≤ s.step ∧ s.step ≤ (numQuestions : Int) ∧
  (s.step = -1 → s.answers = []) ∧
  (0 ≤ s.step → (s.answers.length : Int) = s.step)

lemma botStep_mono (o : Option Session) (m : Str) :
    sessionStep o ≤ (botStep o m).sess.step := by
  cases o with
  | none => simp [botStep, sessionStep]
  | some s =>
    rw [sessionStep, botStep]
    by_cases h1 : s.step = -1
    · rw [if_pos h1]
      by_cases h2 : pylower m = ("ready").data
      · rw [if_pos h2]
        dsimp
        omega
      · rw [if_neg h2]
    · rw [if_neg h1]
      by_cases h3 : 0 ≤ s.step ∧ s.step < (numQuestions : Int)
      · rw [if_pos h3]
        by_cases h4 : s.step + 1 < (numQuestions : Int)
        · rw [if_pos h4]
          dsimp
          omega
        · rw [if_neg h4]
          dsimp
          omega
      · rw [if_neg h3]
        by_cases h5 : s.suggested = true ∧ s.feedback = none
        · rw [if_pos h5]
        · rw [if_neg h5]

lemma botStep_inv (o : Option Session) (m : Str) (h : ∀ s, o = some s → SessInv s) :
    SessInv (botStep o m).sess := by
  cases o with
  | none =>
    show SessInv (Session.mk (-1) [] false none none)
    exact ⟨by decide, by decide, fun _ => rfl, fun hz => absurd hz (by decide)⟩
  | some s =>
    obtain ⟨ha, hb, hc, hd⟩ := h s rfl
    rw [botStep]
    by_cases h1 : s.step = -1
    · rw [if_pos h1]
      by_cases h2 : pylower m = ("ready").data
      · rw [if_pos h2]
        refine ⟨by dsimp; omega, by dsimp; rw [numQuestions_int]; omega, ?_, ?_⟩
        · intro hz
          exact absurd hz (by dsimp; omega)
        · intro hz
          dsimp
          rw [hc h1]
          rfl
      · rw [if_neg h2]
        exact ⟨ha, hb, hc, hd⟩
    · rw [if_neg h1]
      by_cases h3 : 0 ≤ s.step ∧ s.step < (numQuestions : Int)
      · rw [if_pos h3]
        have hl := hd h3.1
        by_cases h4 : s.step + 1 < (numQuestions : Int)
        · rw [if_pos h4]
          refine ⟨by dsimp; omega, by dsimp; omega, ?_, ?_⟩
          · intro hz
            exact absurd hz (by dsimp; omega)
          · intro hz
            dsimp
            rw [List.length_append, List.length_cons, List.length_nil]
            push_cast
            omega
        · rw [if_neg h4]
          refine ⟨by dsimp; omega, by dsimp; omega, ?_, ?_⟩
          · intro hz
            exact absurd hz (by dsimp; omega)
          · intro hz
            dsimp
            rw [List.length_append, List.length_cons, List.length_nil]
            push_cast
            omega
      · rw [if_neg h3]
        by_cases h5 : s.suggested = true ∧ s.feedback = none
        · rw [if_pos h5]
          exact ⟨ha, hb, hc, hd⟩
        · rw [if_neg h5]
          exact ⟨ha, hb, hc, hd⟩

/-- The handler spawns the background thread exactly on the transition that
takes `step` from `numQuestions - 1` to `numQuestions`. -/
lemma botStep_spawn_true (o : Option Session) (m : Str)
    (h : (botStep o m).spawn = true) :
    sessionStep o ≠ (numQuestions : Int) ∧
    (botStep o m).sess.step = (numQuestions : Int) := by
  cases o with
  | none => simp [botStep] at h
  | some s =>
    rw [sessionStep]
    rw [botStep] at h ⊢
    by_cases h1 : s.step = -1
    · rw [if_pos h1] at h ⊢
      by_cases h2 : pylower m = ("ready").data
      · rw [if_pos h2] at h
        simp at h
      · rw [if_neg h2] at h
        simp at h
    · rw [if_neg h1] at h ⊢
      by_cases h3 : 0 ≤ s.step ∧ s.step < (numQuestions : Int)
      · rw [if_pos h3] at h ⊢
        by_cases h4 : s.step + 1 < (numQuestions : Int)
        · rw [if_pos h4] at h
          simp at h
        · rw [if_neg h4] at h ⊢
          dsimp
          omega
      · rw [if_neg h3] at h ⊢
        by_cases h5 : s.suggested = true ∧ s.feedback = none
        · rw [if_pos h5] at h
          simp at h
        · rw [if_neg h5] at h
          simp at h

/-- When no thread is spawned, whether `step` sits at `numQuestions` is
unchanged by the transition. -/
lemma botStep_spawn_false (o : Option Session) (m : Str)
    (h : (botStep o m).spawn = false) :
    ((botStep o m).sess.step = (numQuestions : Int) ↔
      sessionStep o = (numQuestions : Int)) := by
  cases o with
  | none =>
    show ((-1 : Int) = (numQuestions : Int)) ↔ _
    rw [sessionStep]
  | some s =>
    rw [sessionStep]
    rw [botStep] at h ⊢
    by_cases h1 : s.step = -1
    · rw [if_pos h1] at h ⊢
      by_cases h2 : pylower m = ("ready").data
      · rw [if_pos h2]
        dsimp
        rw [numQuestions_int]
        omega
      · rw [if_neg h2]
    · rw [if_neg h1] at h ⊢
      by_cases h3 : 0 ≤ s.step ∧ s.step < (numQuestions : Int)
      · rw [if_pos h3] at h ⊢
        by_cases h4 : s.step + 1 < (numQuestions : Int)
        · rw [if_pos h4]
          dsimp
          omega
        · rw [if_neg h4] at h
          simp at h
      · rw [if_neg h3] at h ⊢
        by_cases h5 : s.suggested = true ∧ s.feedback = none
        · rw [if_pos h5]
        · rw [if_neg h5]

/-- The quiz branch: an in-quiz session absorbs any message as the next
answer, incrementing `step`, and spawns the thread exactly when this was the
final question. -/
lemma botStep_quiz (s : Session) (m : Str) (h0 : 0 ≤ s.step)
    (hlt : s.step < (numQuestions : Int)) :
    (botStep (some s) m).sess =
      { s with answers := s.answers ++ [m], step := s.step + 1 } ∧
    ((botStep (some s) m).spawn = true ↔ s.step + 1 = (numQuestions : Int)) := by
  rw [botStep, if_neg (by omega : ¬ s.step = -1), if_pos ⟨h0, hlt⟩]
  by_cases h4 : s.step + 1 < (numQuestions : Int)
  · rw [if_pos h4]
    exact ⟨rfl, by simp; omega⟩
  · rw [if_neg h4]
    exact ⟨rfl, by simp; omega⟩

/-- A completed session (`step = numQuestions`) never spawns the thread
again, whatever message arrives and whether or not `suggested` is set. -/
lemma botStep_complete (t : Session) (m : Str)
    (ht : t.step = (numQuestions : Int)) :
    (botStep (some t) m).spawn = false := by
  have hN : (numQuestions : Int) = 10 := numQuestions_int
  rw [botStep, if_neg (by omega : ¬ t.step = -1),
      if_neg (by omega : ¬ (0 ≤ t.step ∧ t.step < (numQuestions : Int)))]
  by_cases h5 : t.suggested = true ∧ t.feedback = none
  · rw [if_pos h5]
  · rw [if_neg h5]

/-- Invariant of the reachable (session, thread-count) states: every live
session satisfies `SessInv`, and the number of background threads started so
far is 1 exactly when the session has reached `step = numQuestions`. -/
def TraceInv (st : Option Session × Nat) : Prop :=
  (∀ s, st.1 = some s → SessInv s) ∧
  st.2 = (if sessionStep st.1 = (numQuestions : Int) then 1 else 0)

lemma applyEv_traceInv (st : Option Session × Nat) (ev : Ev) (h : TraceInv st) :
    TraceInv (applyEv st ev) := by
  obtain ⟨hinv, hcnt⟩ := h
  cases ev with
  | bgDone uid =>
    rw [applyEv]
    cases ho : st.1 with
    | none =>
      refine ⟨?_, ?_⟩
      · intro s hs
        simp at hs
      · dsimp only
        rw [ho] at hcnt
        exact hcnt
    | some s =>
      refine ⟨?_, ?_⟩
      · intro s2 hs2
        dsimp only at hs2
        rw [Option.some.injEq] at hs2
        subst hs2
        exact hinv s ho
      · dsimp only
        rw [ho] at hcnt
        exact hcnt
  | inbound body =>
    rw [applyEv]
    refine ⟨?_, ?_⟩
    · intro s2 hs2
      dsimp only at hs2
      rw [Option.some.injEq] at hs2
      subst hs2
      exact botStep_inv st.1 (pystrip (body.getD [])) hinv
    · cases hsp : (botStep st.1 (pystrip (body.getD []))).spawn with
      | true =>
        obtain ⟨hold, hnew⟩ := botStep_spawn_true st.1 (pystrip (body.getD [])) hsp
        dsimp only
        rw [if_pos rfl, sessionStep, hnew, if_pos rfl, hcnt, if_neg hold]
      | false =>
        have hiff := botStep_spawn_false st.1 (pystrip (body.getD [])) hsp
        dsimp only
        rw [if_neg (by simp), Nat.add_zero, hcnt, sessionStep]
        exact if_congr hiff.symm rfl rfl

lemma runSession_traceInv (evs : List Ev) : TraceInv (runSession evs) := by
  have base : TraceInv ((none : Option Session), 0) := by
    refine ⟨?_, ?_⟩
    · intro s hs
      simp at hs
    · decide
  rw [runSession]
  have step : ∀ st, TraceInv st → TraceInv (evs.foldl applyEv st) := by
    induction evs with
    | nil => intro st h; exact h
    | cons e es ih =>
      intro st h
      rw [List.foldl_cons]
      exact ih _ (applyEv_traceInv st e h)
  exact step _ base

lemma runSession_append_one (evs : List Ev) (ev : Ev) :
    runSession (evs ++ [ev]) = applyEv (runSession evs) ev := by
  rw [runSession, runSession, List.foldl_append, List.foldl_cons, List.foldl_nil]

lemma applyEv_mono (st : Option Session × Nat) (ev : Ev) :
    sessionStep st.1 ≤ sessionStep (applyEv st ev).1 := by
  cases ev with
  | inbound body => exact botStep_mono st.1 (pystrip (body.getD []))
  | bgDone uid =>
    rw [applyEv]
    cases ho : st.1 with
    | none => exact le_rfl
    | some s => exact le_rfl

/-! ## State machine claim theorems -/

/-- C4: in every session state reachable by a sequence of events (inbound
messages and background-thread completions), whenever `0 ≤ step ≤ N` the
number of stored answers equals `step`; and across any appended transition
`step` never decreases. -/
theorem session_answers_track_step (evs : List Ev) (ev : Ev) (s : Session)
    (hs : (runSession evs).1 = some s) (h0 : 0 ≤ s.step)
    (hN : s.step ≤ (numQuestions : Int)) :
    (s.answers.length : Int) = s.step ∧
    sessionStep (runSession evs).1 ≤ sessionStep (runSession (evs ++ [ev])).1 := by
  obtain ⟨hinv, -⟩ := runSession_traceInv evs
  refine ⟨(hinv s hs).2.2.2 h0, ?_⟩
  rw [runSession_append_one]
  exact applyEv_mono (runSession evs) ev

theorem session_answers_track_step_witness :
    (((Session.mk 0 [] false none none).answers.length : Int) =
      (Session.mk 0 [] false none none).step) ∧
    sessionStep (runSession [Ev.inbound (some (("hello").data)),
        Ev.inbound (some (("ready").data))]).1 ≤
      sessionStep (runSession ([Ev.inbound (some (("hello").data)),
        Ev.inbound (some (("ready").data))] ++ [Ev.inbound (some (("FSc").data))])).1 :=
  session_answers_track_step
    [Ev.inbound (some (("hello").data)), Ev.inbound (some (("ready").data))]
    (Ev.inbound (some (("FSc").data))) (Session.mk 0 [] false none none)
    (by decide) (by decide) (by decide)

/-- C5: along any event trace the background suggestion task is started at
most once, and exactly once precisely when the session has reached
`step = numQuestions` (the quiz is complete); the transition consuming the
final answer moves `step` to `numQuestions` and does spawn the task; and any
message to a completed session — in particular one with `suggested` still
false — spawns nothing. -/
theorem background_task_once (evs : List Ev) (s t : Session) (m m2 : Str)
    (hs1 : s.step + 1 = (numQuestions : Int)) (hs0 : 0 ≤ s.step)
    (ht : t.step = (numQuestions : Int)) (htf : t.suggested = false) :
    (runSession evs).2 ≤ 1 ∧
    ((runSession evs).2 = 1 ↔ sessionStep (runSession evs).1 = (numQuestions : Int)) ∧
    (botStep (some s) m).sess.step = (numQuestions : Int) ∧
    (botStep (some s) m).spawn = true ∧
    (botStep (some t) m2).spawn = false := by
  obtain ⟨-, hcnt⟩ := runSession_traceInv evs
  obtain ⟨hsess, hspawn⟩ := botStep_quiz s m hs0 (by omega)
  refine ⟨?_, ?_, ?_, ?_, ?_⟩
  · rw [hcnt]
    by_cases hq : sessionStep (runSession evs).1 = (numQuestions : Int)
    · rw [if_pos hq]
    · rw [if_neg hq]
      omega
  · rw [hcnt]
    by_cases hq : sessionStep (runSession evs).1 = (numQuestions : Int)
    · rw [if_pos hq]
      simp [hq]
    · rw [if_neg hq]
      simp [hq]
  · rw [hsess]
    dsimp
    omega
  · exact hspawn.mpr hs1
  · exact botStep_complete t m2 ht

theorem background_task_once_witness :
    (runSession []).2 ≤ 1 ∧
    ((runSession []).2 = 1 ↔ sessionStep (runSession []).1 = (numQuestions : Int)) ∧
    (botStep (some (Session.mk 9 [] false none none)) (("last answer").data)).sess.step =
      (numQuestions : Int) ∧
    (botStep (some (Session.mk 9 [] false none none)) (("last answer").data)).spawn = true ∧
    (botStep (some (Session.mk 10 [] false none none)) (("again").data)).spawn = false :=
  background_task_once [] (Session.mk 9 [] false none none)
    (Session.mk 10 [] false none none) (("last answer").data) (("again").data)
    (by decide) (by decide) (by decide) (by decide)

lemma whatsapp_bot_store (sender body : Str) (states : Str → Option Session) (s : Session)
    (hne : ¬ sender = []) (hs : states (phoneOf sender) = some s) :
    (whatsapp_bot (some sender) (some body) states).states (phoneOf sender) =
      some (botStep (some s) (pystrip body)).sess := by
  rw [whatsapp_bot]
  dsimp only
  rw [if_neg hne]
  dsimp only
  rw [if_pos rfl, hs]
  rfl

/-- C6 (amended): an in-quiz session accepts any inbound body — including a
blank or whitespace-only one — as the answer, but the stored answer is the
body with leading and trailing whitespace stripped (the handler runs
`.strip()` on the body before dispatch), not the body as sent. -/
theorem quiz_answer_stored_stripped (sender body : Str) (states : Str → Option Session)
    (s : Session) (hne : ¬ sender = []) (hs : states (phoneOf sender) = some s)
    (h0 : 0 ≤ s.step) (hlt : s.step < (numQuestions : Int)) :
    (whatsapp_bot (some sender) (some body) states).states (phoneOf sender) =
      some { s with answers := s.answers ++ [pystrip body], step := s.step + 1 } := by
  rw [whatsapp_bot_store sender body states s hne hs, (botStep_quiz s (pystrip body) h0 hlt).1]

theorem quiz_answer_stored_stripped_witness :
    (whatsapp_bot (some (("whatsapp:123").data)) (some ((" Great ").data))
      (fun p => if p = ("123").data then some (Session.mk 0 [] false none none) else none)).states
        (phoneOf (("whatsapp:123").data)) =
      some { Session.mk 0 [] false none none with
              answers := (Session.mk 0 [] false none none).answers ++
                [pystrip ((" Great ").data)],
              step := (Session.mk 0 [] false none none).step + 1 } :=
  quiz_answer_stored_stripped (("whatsapp:123").data) ((" Great ").data)
    (fun p => if p = ("123").data then some (Session.mk 0 [] false none none) else none)
    (Session.mk 0 [] false none none) (by decide) (by decide) (by decide) (by decide)

/-- C6 counterexample: a whitespace-only body `" "` sent to a session at
`AWAITING_ANSWER(0)` is stored as the empty string, not as the one-space
string that was sent — the stored answer differs from the body as sent. -/
theorem quiz_answer_not_stored_verbatim :
    (whatsapp_bot (some (("whatsapp:x").data)) (some [' '])
      (fun p => if p = ("x").data then some (Session.mk 0 [] false none none) else none)).states
        (("x").data) = some (Session.mk 1 [[]] false none none) ∧
    ¬ ([] : Str) = [' '] := by
  refine ⟨?_, ?_⟩
  · decide
  · decide

/-- C9: a request with no `From` field is answered with status 400 and no
body, the `user_states` map is returned unchanged (the very same map), and
no background thread is started. -/
theorem missing_sender_rejected (bodyField : Option Str)
    (user_states : Str → Option Session) :
    (whatsapp_bot none bodyField user_states).response.status = 400 ∧
    (whatsapp_bot none bodyField user_states).response.body = none ∧
    (whatsapp_bot none bodyField user_states).states = user_states ∧
    (whatsapp_bot none bodyField user_states).spawned = false :=
  ⟨rfl, rfl, rfl, rfl⟩

/-! ## Suggestion generator claim theorems -/

/-- C8 (amended): the suggestion generator is total over any outcome of the
completion call — when the call raises, it returns the warning string with
the error cause appended (never propagating the exception); when the call
succeeds, it returns the completion text stripped of leading and trailing
whitespace (the code applies `.strip()` before returning). -/
theorem career_suggestions_behavior (answers answers2 : List Str)
    (c1 c2 : Str → Except Str Str) (e t : Str)
    (he : c1 (prompt_for answers) = Except.error e)
    (ht : c2 (prompt_for answers2) = Except.ok t) :
    get_career_suggestions answers c1 =
      ("⚠️ Something went wrong with OpenAI: ").data ++ e ∧
    get_career_suggestions answers2 c2 = pystrip t := by
  rw [get_career_suggestions, he, get_career_suggestions, ht]
  exact ⟨rfl, rfl⟩

theorem career_suggestions_behavior_witness :
    get_career_suggestions [] (fun _ => Except.error (("boom").data)) =
      ("⚠️ Something went wrong with OpenAI: ").data ++ ("boom").data ∧
    get_career_suggestions [] (fun _ => Except.ok ((" ok ").data)) =
      pystrip ((" ok ").data) :=
  career_suggestions_behavior [] [] (fun _ => Except.error (("boom").data))
    (fun _ => Except.ok ((" ok ").data)) (("boom").data) ((" ok ").data) rfl rfl

/-- C8 counterexample: when the completion call succeeds with text carrying
surrounding whitespace, the generator does not return the completion text
itself — it returns the stripped text, which differs. -/
theorem career_suggestions_not_verbatim :
    get_career_suggestions [] (fun _ => Except.ok ((" hi ").data)) = ("hi").data ∧
    ¬ ("hi").data = (" hi ").data := by
  refine ⟨?_, ?_⟩
  · decide
  · decide

/-! ## User-counter seeding claim theorems -/

/-- C7 counterexample: a sheet state the app itself can produce — the
placeholder row for `User #2` is written before `User #1` leaves feedback,
and the feedback update falls back to appending a fresh `User #1` row — makes
the last row carry `User #1`.  The startup scan seeds the counter with 1,
not with the highest number (2) appearing in the rows, so the next completed
session is assigned the already-used identifier `User #2`. -/
theorem init_user_counter_not_highest :
    init_user_counter
      [ [("User ID").data, ("Feedback").data, ("Time").data]
      , [("User #2").data, ("No feedback left").data, ("2024-01-01 10:00:00").data]
      , [("User #1").data, ("Great bot!").data, ("2024-01-01 10:05:00").data] ] = 1 ∧
    spec_highest_user_num
      [ [("User ID").data, ("Feedback").data, ("Time").data]
      , [("User #2").data, ("No feedback left").data, ("2024-01-01 10:00:00").data]
      , [("User #1").data, ("Great bot!").data, ("2024-01-01 10:05:00").data] ] = 2 ∧
    ¬ (1 : Nat) = 2 := by
  refine ⟨?_, ?_, ?_⟩
  · decide
  · decide
  · decide

/-- C7 (amended): the startup counter is seeded from the LAST persisted row
only — when the sheet has more than one row, the counter is the number
parsed via the `User #<n>` pattern from the first cell of the last row (0
when that cell has no match or the last row is empty); with at most one row
the counter is 0.  Rows other than the last are never examined, so a
previously assigned identifier can be reused after a restart. -/
theorem init_user_counter_last_row (records rs : List (List Str)) (row : List Str)
    (hlen : 1 < records.length) (hlast : records.getLast? = some row)
    (hrs : rs.length ≤ 1) :
    init_user_counter records = ((row.head?.bind matchUserNum).getD 0) ∧
    init_user_counter rs = 0 := by
  refine ⟨?_, ?_⟩
  · rw [init_user_counter, if_pos hlen, hlast]
    dsimp only
    cases hh : row.head? with
    | none => rfl
    | some cell =>
      dsimp only [Option.bind]
      cases hm : matchUserNum cell with
      | none => rfl
      | some n => rfl
  · rw [init_user_counter, if_neg (by omega)]

theorem init_user_counter_last_row_witness :
    init_user_counter [[("header").data], [("User #7").data]] =
      (((([("User #7").data] : List Str).head?.bind matchUserNum)).getD 0) ∧
    init_user_counter [[("User #9").data]] = 0 :=
  init_user_counter_last_row [[("header").data], [("User #7").data]]
    [[("User #9").data]] [("User #7").data] (by decide) (by decide) (by decide)
